import Mathlib

/-!
Shallow embedding of the Emergency Orchestration subsystem of the
StopitHarassment PWA: `EmergencyManager` (js/emergency.js),
`StorageManager` (js/storage.js) and `BluetoothManager`
(the bluetooth source file).  Asynchronous collaborator calls are
embedded as outcome parameters (each `Except String _` value is the
settled result of the corresponding awaited promise); the IndexedDB
`emergencies` object store is a list of rows threaded through the
functions that touch it.
-/

namespace StopIt

/-- Trusted contact as stored by StorageManager (fields read by
emergency.js: id, name, email). -/
structure Contact where
  id : String
  name : String
  email : String
deriving DecidableEq, Repr

/-- Location snapshot returned by the location collaborator; the payload is
opaque to the orchestration code, which only passes it along. -/
structure Location where
  payload : String
deriving DecidableEq, Repr

/-- Value returned by startEmergencyAudioRecording (started flag plus
opaque detail); opaque to the dispatch logic. -/
structure AudioRec where
  started : Bool
  info : String
deriving DecidableEq, Repr

/-- Per-channel tally mutated by the send helpers of
EmergencyManager.sendEmergencyAlerts: a sent counter, a failed counter and
the list of error messages pushed on failures. -/
structure ChannelTally where
  sent : Nat
  failed : Nat
  errors : List String
deriving DecidableEq, Repr

/-- Aggregate results object built by EmergencyManager.sendEmergencyAlerts
(emergency.js lines 187-193 and 215-216). -/
structure AlertResults where
  bluetooth : ChannelTally
  firebase : ChannelTally
  authorities : ChannelTally
  totalSent : Nat
  totalFailed : Nat
deriving DecidableEq, Repr

/-- Emergency context assembled by
EmergencyManager.executeEmergencyProcedures (emergency.js lines 83-89). -/
structure EmergencyData where
  location : Option Location
  audioRecording : Option AudioRec
  contacts : List Contact
  timestamp : Nat
  emergencyId : String
deriving DecidableEq, Repr

/-- Row of the IndexedDB emergencies object store.  saveEmergency spreads
its argument object into the stored row, so a row may carry fields no
writer in this repository ever sets (they are preserved verbatim by the
store); `state` and `nextRetryAt` are such passthrough fields, present so
that retry-queue properties can be stated over the store.  The code itself
reads only `id` and `synced` (and writes `synced`, `createdAt`). -/
structure EmRow where
  id : String
  type : String
  timestamp : Nat
  status : Option String
  originalId : Option String
  data : Option EmergencyData
  alertResults : Option AlertResults
  duration : Option Nat
  synced : Bool
  createdAt : Nat
  state : Option String
  nextRetryAt : Option Nat
deriving DecidableEq, Repr

/-- Lookup of a row by primary key (IndexedDB store.get(id)). -/
def findRow (db : List EmRow) (id : String) : Option EmRow :=
  db.find? fun r => r.id == id

/-- StorageManager.saveEmergency (storage.js lines 228-248): forces
`synced := false`, stamps `createdAt`, then store.add, which fails when the
primary key already exists (callers always pass an explicit id and
timestamp, so the generateId and Date.now fallbacks never fire). -/
def saveEmergency (db : List EmRow) (now : Nat) (row : EmRow) :
    Except String (List EmRow) :=
  let data := { row with synced := false, createdAt := now }
  if db.any (fun r => r.id == row.id) then .error "ConstraintError"
  else .ok (db ++ [data])

/-- StorageManager.getPendingEmergencies (storage.js lines 268-280):
index.getAll(false) on the synced index, i.e. every row whose synced flag
is false; no other field and no clock is consulted. -/
def getPendingEmergencies (db : List EmRow) : List EmRow :=
  db.filter fun r => !r.synced

/-- Insertion step for the claim-side ordering of pending entries by
nextRetryAt ascending. -/
def insertByRetry (r : EmRow) : List EmRow → List EmRow
  | [] => [r]
  | x :: xs =>
      if r.nextRetryAt.getD 0 ≤ x.nextRetryAt.getD 0 then r :: x :: xs
      else x :: insertByRetry r xs

/-- Claim-side sort of pending entries by nextRetryAt ascending. -/
def sortByRetry : List EmRow → List EmRow
  | [] => []
  | x :: xs => insertByRetry x (sortByRetry xs)

/-- Written from the words of the GetPending claim, for comparison with
getPendingEmergencies: all and only entries in Failed state whose
nextRetryAt is at or before now, sorted by nextRetryAt ascending. -/
def getPendingClaimed (db : List EmRow) (now : Nat) : List EmRow :=
  sortByRetry (db.filter fun r =>
    r.state == some "Failed" &&
      match r.nextRetryAt with
      | some t => decide (t ≤ now)
      | none => false)

/-- Runtime environment read by the dispatch guards: whether the
bluetooth and firebase managers were injected (non-null) and the value of
navigator.onLine. -/
structure Env where
  hasBluetooth : Bool
  hasFirebase : Bool
  online : Bool
deriving DecidableEq, Repr

/-- Settled results of the awaited collaborator calls made during one
dispatch: bluetooth.broadcastEmergency, firebase.saveEmergencyAlert, the
per-contact firebase.sendEmergencyNotification calls,
firebase.sendEmergencyToAuthorities, and the fallback fetch to the
authority endpoint (ok status code, or a network error). -/
structure DispatchOutcomes where
  broadcastEmergency : Except String Unit
  saveEmergencyAlert : Except String Unit
  sendNotification : Contact → Except String Unit
  sendToAuthorities : Except String Unit
  fetchAuthorities : Except String Nat

/-- EmergencyManager.sendBluetoothAlerts (emergency.js lines 222-243): one
broadcastEmergency call; success bumps sent, the catch bumps failed and
pushes the error message. -/
def sendBluetoothAlerts (o : Except String Unit) : ChannelTally :=
  match o with
  | .ok _ => ⟨1, 0, []⟩
  | .error e => ⟨0, 1, [e]⟩

/-- EmergencyManager.sendFirebaseAlerts (emergency.js lines 245-280): a
saveEmergencyAlert call whose failure is caught by the outer catch (failed
bumped once, loop never runs), then one notification per contact, each in
its own try so a failure only bumps failed and the loop continues. -/
def sendFirebaseAlerts (contacts : List Contact) (saveO : Except String Unit)
    (notifyO : Contact → Except String Unit) : ChannelTally :=
  match saveO with
  | .error e => ⟨0, 1, [e]⟩
  | .ok _ =>
      contacts.foldl (fun t c =>
        match notifyO c with
        | .ok _ => { t with sent := t.sent + 1 }
        | .error e =>
            { t with failed := t.failed + 1,
                     errors := t.errors ++ [c.email ++ ": " ++ e] })
        ⟨0, 0, []⟩

/-- EmergencyManager.notifyAuthorities (emergency.js lines 282-321): the
firebase path when a firebase manager exists, else the fetch fallback;
response.ok means a 2xx status; every failure is caught into the tally. -/
def notifyAuthorities (hasFirebase : Bool) (fbO : Except String Unit)
    (fetchO : Except String Nat) : ChannelTally :=
  if hasFirebase then
    match fbO with
    | .ok _ => ⟨1, 0, []⟩
    | .error e => ⟨0, 1, [e]⟩
  else
    match fetchO with
    | .ok status =>
        if 200 ≤ status && status < 300 then ⟨1, 0, []⟩
        else ⟨0, 1, ["Authority notification failed: " ++ toString status]⟩
    | .error e => ⟨0, 1, [e]⟩

/-- Trace of which channel send helpers sendEmergencyAlerts pushed onto
alertPromises (emergency.js lines 195-210). -/
structure SendInvocations where
  bluetoothInvoked : Bool
  firebaseInvoked : Bool
  authoritiesInvoked : Bool
deriving DecidableEq, Repr

/-- EmergencyManager.sendEmergencyAlerts (emergency.js lines 186-220):
guards each channel helper, awaits them all via Promise.allSettled (so no
helper rejection escapes), then totals the per-channel tallies. -/
def sendEmergencyAlerts (env : Env) (d : EmergencyData)
    (o : DispatchOutcomes) : AlertResults × SendInvocations :=
  let btOn := env.hasBluetooth && !d.contacts.isEmpty
  let fbOn := env.hasFirebase && env.online && !d.contacts.isEmpty
  let authOn := env.online
  let bt := if btOn then sendBluetoothAlerts o.broadcastEmergency else ⟨0, 0, []⟩
  let fb := if fbOn then
      sendFirebaseAlerts d.contacts o.saveEmergencyAlert o.sendNotification
    else ⟨0, 0, []⟩
  let auth := if authOn then
      notifyAuthorities env.hasFirebase o.sendToAuthorities o.fetchAuthorities
    else ⟨0, 0, []⟩
  ({ bluetooth := bt, firebase := fb, authorities := auth,
     totalSent := bt.sent + fb.sent + auth.sent,
     totalFailed := bt.failed + fb.failed + auth.failed },
   ⟨btOn, fbOn, authOn⟩)

/-- EmergencyManager.executeEmergencyProcedures (emergency.js lines
68-90): the three collaborator promises are awaited with
Promise.allSettled, a rejected location or recording yields null and a
rejected contacts fetch yields the empty list. -/
def executeEmergencyProcedures (id : String) (now : Nat)
    (loc : Except String Location) (audio : Except String AudioRec)
    (contactsR : Except String (List Contact)) : EmergencyData :=
  { location := loc.toOption
    audioRecording := audio.toOption
    contacts := (contactsR.toOption).getD []
    timestamp := now
    emergencyId := id }

/-- In-memory coordinator state of EmergencyManager (constructor fields
isEmergencyActive, currentEmergencyId, emergencyStartTime). -/
structure CoordState where
  isEmergencyActive : Bool
  currentEmergencyId : Option String
  emergencyStartTime : Option Nat
deriving DecidableEq, Repr

/-- Observable effects of one activateEmergency run, in program order: a
channelSend for each channel helper invoked, and a journalWrite when
storage.saveEmergency succeeds. -/
inductive Event where
  | channelSend (channel : String)
  | journalWrite (id : String)
deriving DecidableEq, Repr

/-- Channel-send events of one dispatch, in the order the helpers are
pushed in sendEmergencyAlerts. -/
def sendEventsOf (inv : SendInvocations) : List Event :=
  (if inv.bluetoothInvoked then [Event.channelSend "bluetooth"] else []) ++
  (if inv.firebaseInvoked then [Event.channelSend "firebase"] else []) ++
  (if inv.authoritiesInvoked then [Event.channelSend "authorities"] else [])

/-- Summary object returned to the caller on a successful activation
(emergency.js lines 55-60). -/
structure Summary where
  emergencyId : String
  alertsSent : Nat
  location : Option Location
  recording : Option AudioRec
deriving DecidableEq, Repr

/-- EmergencyManager.activateEmergency (emergency.js lines 26-66).  When
an emergency is already active it warns and returns undefined (modelled as
ok none) touching nothing.  Otherwise it sets the in-memory fields,
gathers context, sends the alerts, and only then saves the record (which
embeds alertResults); the only statement in the try block that can throw
is storage.saveEmergency, and its failure is caught, isEmergencyActive is
reset to false, and the error is rethrown (currentEmergencyId and
emergencyStartTime are left set). -/
def activateEmergency (s : CoordState) (db : List EmRow) (newId : String)
    (now : Nat) (loc : Except String Location) (audio : Except String AudioRec)
    (contactsR : Except String (List Contact)) (env : Env)
    (o : DispatchOutcomes) :
    CoordState × List EmRow × List Event × Except String (Option Summary) :=
  if s.isEmergencyActive then
    (s, db, [], .ok none)
  else
    let s1 : CoordState :=
      { isEmergencyActive := true, currentEmergencyId := some newId,
        emergencyStartTime := some now }
    let d := executeEmergencyProcedures newId now loc audio contactsR
    let ri := sendEmergencyAlerts env d o
    let results := ri.1
    let inv := ri.2
    let row : EmRow :=
      { id := newId, type := "manual", timestamp := now,
        status := some "active", originalId := none, data := some d,
        alertResults := some results, duration := none, synced := false,
        createdAt := now, state := none, nextRetryAt := none }
    match saveEmergency db now row with
    | .error e =>
        ({ s1 with isEmergencyActive := false }, db, sendEventsOf inv, .error e)
    | .ok db2 =>
        (s1, db2, sendEventsOf inv ++ [Event.journalWrite newId],
         .ok (some { emergencyId := newId, alertsSent := results.totalSent,
                     location := d.location, recording := d.audioRecording }))

/-- Cancellation row written by cancelEmergency (emergency.js lines
441-448): a fresh record keyed by the original id plus the -cancelled
suffix, linked back through originalId. -/
def cancellationRow (id : String) (now start : Nat) : EmRow :=
  { id := id ++ "-cancelled", type := "cancellation", timestamp := now,
    status := some "cancelled", originalId := some id, data := none,
    alertResults := none, duration := some (now - start), synced := false,
    createdAt := now, state := none, nextRetryAt := none }

/-- EmergencyManager.cancelEmergency (emergency.js lines 408-466): no-op
when no emergency is active; otherwise it writes a fresh cancellation row
under the key currentEmergencyId plus the suffix -cancelled (a save
failure is caught and only logged), fires the best-effort cancellation
alerts (which never throw), then clears the in-memory fields.  The
recording save and the cancellation alerts touch no stored emergency row,
so only the emergencies store is threaded here. -/
def cancelEmergency (s : CoordState) (db : List EmRow) (now : Nat) :
    CoordState × List EmRow :=
  if !s.isEmergencyActive then (s, db)
  else
    let db2 :=
      match s.currentEmergencyId with
      | none => db
      | some id =>
          match saveEmergency db now
              (cancellationRow id now (s.emergencyStartTime.getD 0)) with
          | .ok db2 => db2
          | .error _ => db
    ({ isEmergencyActive := false, currentEmergencyId := none,
       emergencyStartTime := none }, db2)

/-- Message object queued and sent by BluetoothManager; the payload is
opaque to the queueing logic. -/
structure Msg where
  type : String
  id : String
  payload : String
deriving DecidableEq, Repr

/-- State of BluetoothManager relevant to message delivery: the connection
flag, whether a characteristic handle is held, the in-memory messageQueue,
and the history of messages successfully written to the characteristic
(a proof-side history variable, not a program field). -/
structure BTState where
  isConnected : Bool
  hasCharacteristic : Bool
  messageQueue : List Msg
  transmitted : List Msg
deriving DecidableEq, Repr

/-- BluetoothManager.sendMessage (bluetooth source lines 184-208): when
disconnected or without a characteristic the message is queued and false
returned; otherwise characteristic.writeValue runs (its settled outcome is
the writeOk argument), success returns true, and the catch queues the
message and rethrows. -/
def sendMessage (s : BTState) (writeOk : Bool) (m : Msg) :
    BTState × Except String Bool :=
  if !(s.isConnected && s.hasCharacteristic) then
    ({ s with messageQueue := s.messageQueue ++ [m] }, .ok false)
  else if writeOk then
    ({ s with transmitted := s.transmitted ++ [m] }, .ok true)
  else
    ({ s with messageQueue := s.messageQueue ++ [m] }, .error "write failed")

/-- BluetoothManager.processMessageQueue (bluetooth source lines 210-227):
returns at once on an empty queue, otherwise copies the queue, clears the
field, and re-sends every copied message through sendMessage, each send in
its own try so one failure does not stop the rest; writeOk gives each
write attempt its settled outcome. -/
def processMessageQueue (s : BTState) (writeOk : Msg → Bool) : BTState :=
  if s.messageQueue.isEmpty then s
  else
    let queue := s.messageQueue
    let s0 := { s with messageQueue := [] }
    queue.foldl (fun st m => (sendMessage st (writeOk m) m).1) s0

/-- Policy constants of the EmergencyManager constructor (emergency.js
lines 12-13); no other code in the repository reads them. -/
def retryAttempts : Nat := 3

/-- Companion constant retryDelay = 5000 from the same constructor. -/
def retryDelay : Nat := 5000

/-- Absolute time of reconnect attempt n when a disconnect happens at time
t0 and every attempt fails: onDisconnected schedules the first
attemptReconnect 3000 ms later (bluetooth source lines 133-137), and the
catch of attemptReconnect unconditionally schedules the next one 10000 ms
later (lines 143-149); no attempt counter exists and nothing stops the
chain. -/
def reconnectAttemptTime (t0 : Nat) : Nat → Nat
  | 0 => t0 + 3000
  | n + 1 => reconnectAttemptTime t0 n + 10000

/-! Concrete fixtures used by counterexamples and witnesses. -/

/-- Collaborator outcomes in which every awaited call succeeds. -/
def okOutcomes : DispatchOutcomes :=
  { broadcastEmergency := .ok ()
    saveEmergencyAlert := .ok ()
    sendNotification := fun _ => .ok ()
    sendToAuthorities := .ok ()
    fetchAuthorities := .ok 200 }

/-- Coordinator state with an emergency already active. -/
def activeState : CoordState :=
  { isEmergencyActive := true, currentEmergencyId := some "e0",
    emergencyStartTime := some 0 }

/-- Coordinator state with no active emergency. -/
def idleState : CoordState :=
  { isEmergencyActive := false, currentEmergencyId := none,
    emergencyStartTime := none }

/-- Claim C1.  The claim as frozen says a second activation while one is
active is rejected with AlreadyActiveError.  In the code the early branch
of activateEmergency only warns and returns undefined: at this explicit
input the call returns ok none, which is not an error of any kind, while
leaving the coordinator state, the store and the event trace untouched;
this refutes the rejected-with-AlreadyActiveError part of the claim. -/
theorem C1_counterexample :
    activateEmergency activeState [] "e1" 5 (.error "no fix")
      (.error "no mic") (.error "no contacts") ⟨true, true, true⟩ okOutcomes
      = (activeState, [], [], .ok none) := by
  rfl

/-- Claim C1 (amended).  While an emergency is active, a new
activateEmergency call returns undefined (ok none) without raising any
error, leaves the in-memory state and the stored records unchanged,
performs no channel send, and queues nothing. -/
theorem C1_already_active_silent_noop (s : CoordState) (db : List EmRow)
    (newId : String) (now : Nat) (loc : Except String Location)
    (audio : Except String AudioRec) (contactsR : Except String (List Contact))
    (env : Env) (o : DispatchOutcomes) (h : s.isEmergencyActive = true) :
    activateEmergency s db newId now loc audio contactsR env o
      = (s, db, [], .ok none) := by
  simp [activateEmergency, h]

/-- Witness for C1_already_active_silent_noop at a concrete active state. -/
theorem C1_already_active_silent_noop_witness :
    activeState.isEmergencyActive = true ∧
    activateEmergency activeState [] "e1" 5 (.ok ⟨"fix"⟩)
      (.ok ⟨true, "rec"⟩) (.ok []) ⟨true, true, true⟩ okOutcomes
      = (activeState, [], [], .ok none) :=
  ⟨rfl, C1_already_active_silent_noop activeState [] "e1" 5 (.ok ⟨"fix"⟩)
    (.ok ⟨true, "rec"⟩) (.ok []) ⟨true, true, true⟩ okOutcomes rfl⟩

/-- Every event produced by sendEventsOf is a channel send. -/
theorem sendEventsOf_send (inv : SendInvocations) :
    ∀ e ∈ sendEventsOf inv, ∃ c, e = Event.channelSend c := by
  intro e he
  rcases inv with ⟨b, f, a⟩
  cases b <;> cases f <;> cases a <;> simp [sendEventsOf] at he <;> aesop

/-- Claim C2.  The claim as frozen says the initial record is written to
durable storage strictly before any channel send.  At this explicit input
(idle state, empty store, online, no firebase manager, so exactly the
authorities channel fires and the store write succeeds) the trace of the
activation run is a channel send followed by the journal write: the send
happens first, refuting the write-before-dispatch ordering. -/
theorem C2_counterexample :
    (activateEmergency idleState [] "e1" 5 (.error "no fix") (.error "no mic")
      (.error "no contacts") ⟨false, false, true⟩ okOutcomes).2.2.1
      = [Event.channelSend "authorities", Event.journalWrite "e1"] := by
  rfl

/-- Claim C2 (amended).  The order is the reverse of the claimed one: in
every run of activateEmergency the event trace splits into a first part
consisting only of channel sends and a second part consisting only of
journal writes, so the record (which embeds the alert results) is stored
only after dispatch, and a failed store write happens after the alerts
already went out. -/
theorem C2_dispatch_precedes_journal_write (s : CoordState) (db : List EmRow)
    (newId : String) (now : Nat) (loc : Except String Location)
    (audio : Except String AudioRec) (contactsR : Except String (List Contact))
    (env : Env) (o : DispatchOutcomes) :
    ∃ pre post,
      (activateEmergency s db newId now loc audio contactsR env o).2.2.1
        = pre ++ post ∧
      (∀ e ∈ pre, ∃ c, e = Event.channelSend c) ∧
      (∀ e ∈ post, ∃ w, e = Event.journalWrite w) := by
  unfold activateEmergency
  split
  · exact ⟨[], [], rfl, by simp, by simp⟩
  · dsimp only
    split
    · exact ⟨sendEventsOf (sendEmergencyAlerts env
          (executeEmergencyProcedures newId now loc audio contactsR) o).2, [],
        by simp, sendEventsOf_send _, by simp⟩
    · refine ⟨sendEventsOf (sendEmergencyAlerts env
          (executeEmergencyProcedures newId now loc audio contactsR) o).2,
        [Event.journalWrite newId], by simp, sendEventsOf_send _, ?_⟩
      intro e he
      simp at he
      exact ⟨newId, he⟩

/-- Emergency context with an empty contact list and no location or
recording, as produced when every collaborator fails. -/
def emptyContextData : EmergencyData :=
  { location := none, audioRecording := none, contacts := [],
    timestamp := 0, emergencyId := "e1" }

/-- Claim C3.  The claim as frozen says Send is invoked for every channel
in the set, with no channel skipped because of runtime conditions.  At
this explicit input, with bluetooth and firebase managers configured and
the browser online but the contact list empty, the bluetooth and firebase
helpers are both skipped by their guards and only the authorities helper
runs, refuting the every-channel-is-attempted claim. -/
theorem C3_counterexample :
    (sendEmergencyAlerts ⟨true, true, true⟩ emptyContextData okOutcomes).2
      = ⟨false, false, true⟩ := by
  rfl

/-- Claim C3 (amended).  sendEmergencyAlerts invokes the bluetooth helper
exactly when a bluetooth manager is configured and the contact list is
nonempty, the firebase helper exactly when a firebase manager is
configured, the browser is online and the contact list is nonempty, and
the authorities helper exactly when the browser is online; which helpers
run never depends on any channel outcome, and each channel tally depends
only on the outcomes of that channel. -/
theorem C3_guarded_independent_fanout (env : Env) (d : EmergencyData)
    (o o2 : DispatchOutcomes) :
    (sendEmergencyAlerts env d o).2
      = ⟨env.hasBluetooth && !d.contacts.isEmpty,
         env.hasFirebase && env.online && !d.contacts.isEmpty,
         env.online⟩ ∧
    (sendEmergencyAlerts env d o).2 = (sendEmergencyAlerts env d o2).2 ∧
    (o.broadcastEmergency = o2.broadcastEmergency →
      (sendEmergencyAlerts env d o).1.bluetooth
        = (sendEmergencyAlerts env d o2).1.bluetooth) ∧
    (o.saveEmergencyAlert = o2.saveEmergencyAlert →
      o.sendNotification = o2.sendNotification →
      (sendEmergencyAlerts env d o).1.firebase
        = (sendEmergencyAlerts env d o2).1.firebase) ∧
    (o.sendToAuthorities = o2.sendToAuthorities →
      o.fetchAuthorities = o2.fetchAuthorities →
      (sendEmergencyAlerts env d o).1.authorities
        = (sendEmergencyAlerts env d o2).1.authorities) := by
  refine ⟨rfl, rfl, ?_, ?_, ?_⟩
  · intro h
    simp [sendEmergencyAlerts, h]
  · intro h1 h2
    simp [sendEmergencyAlerts, h1, h2]
  · intro h1 h2
    simp [sendEmergencyAlerts, h1, h2]

/-- Witness for C3_guarded_independent_fanout at a concrete input, each
outcome-equality hypothesis discharged by rfl. -/
theorem C3_guarded_independent_fanout_witness :
    (sendEmergencyAlerts ⟨true, true, true⟩ emptyContextData okOutcomes).2
      = ⟨true && !([] : List Contact).isEmpty,
         true && true && !([] : List Contact).isEmpty, true⟩ ∧
    (sendEmergencyAlerts ⟨true, true, true⟩ emptyContextData okOutcomes).1.bluetooth
      = (sendEmergencyAlerts ⟨true, true, true⟩ emptyContextData okOutcomes).1.bluetooth ∧
    (sendEmergencyAlerts ⟨true, true, true⟩ emptyContextData okOutcomes).1.firebase
      = (sendEmergencyAlerts ⟨true, true, true⟩ emptyContextData okOutcomes).1.firebase ∧
    (sendEmergencyAlerts ⟨true, true, true⟩ emptyContextData okOutcomes).1.authorities
      = (sendEmergencyAlerts ⟨true, true, true⟩ emptyContextData okOutcomes).1.authorities :=
  let p := C3_guarded_independent_fanout ⟨true, true, true⟩ emptyContextData
    okOutcomes okOutcomes
  ⟨p.1, p.2.2.1 rfl, p.2.2.2.1 rfl rfl, p.2.2.2.2 rfl rfl⟩

/-- Adding the per-contact firebase notifications keeps a running tally
whose sent plus failed grows by exactly the number of contacts. -/
theorem firebase_fold_count (notifyO : Contact → Except String Unit)
    (contacts : List Contact) :
    ∀ t0 : ChannelTally,
      (contacts.foldl (fun t c =>
        match notifyO c with
        | .ok _ => { t with sent := t.sent + 1 }
        | .error e =>
            { t with failed := t.failed + 1,
                     errors := t.errors ++ [c.email ++ ": " ++ e] }) t0).sent
      + (contacts.foldl (fun t c =>
        match notifyO c with
        | .ok _ => { t with sent := t.sent + 1 }
        | .error e =>
            { t with failed := t.failed + 1,
                     errors := t.errors ++ [c.email ++ ": " ++ e] }) t0).failed
      = t0.sent + t0.failed + contacts.length := by
  induction contacts with
  | nil => intro t0; simp
  | cons c cs ih =>
      intro t0
      rcases h : notifyO c with v | e <;> simp [List.foldl_cons, h, ih] <;> omega

/-- Claim C4.  sendEmergencyAlerts always returns an aggregate (the
function is total over every combination of channel outcomes, including
all channels failing): its totalSent and totalFailed are the sums of the
per-channel sent and failed tallies, and every channel that runs records
exactly its own outcomes: one outcome for bluetooth and authorities, and
for firebase one per contact (or a single failure when the initial
firebase save fails). -/
theorem C4_aggregate_totals (env : Env) (d : EmergencyData)
    (o : DispatchOutcomes) :
    ((sendEmergencyAlerts env d o).1.totalSent
        = (sendEmergencyAlerts env d o).1.bluetooth.sent
          + (sendEmergencyAlerts env d o).1.firebase.sent
          + (sendEmergencyAlerts env d o).1.authorities.sent) ∧
    ((sendEmergencyAlerts env d o).1.totalFailed
        = (sendEmergencyAlerts env d o).1.bluetooth.failed
          + (sendEmergencyAlerts env d o).1.firebase.failed
          + (sendEmergencyAlerts env d o).1.authorities.failed) ∧
    ((sendEmergencyAlerts env d o).1.bluetooth.sent
        + (sendEmergencyAlerts env d o).1.bluetooth.failed
        = if env.hasBluetooth && !d.contacts.isEmpty then 1 else 0) ∧
    ((sendEmergencyAlerts env d o).1.firebase.sent
        + (sendEmergencyAlerts env d o).1.firebase.failed
        = if env.hasFirebase && env.online && !d.contacts.isEmpty then
            match o.saveEmergencyAlert with
            | .ok _ => d.contacts.length
            | .error _ => 1
          else 0) ∧
    ((sendEmergencyAlerts env d o).1.authorities.sent
        + (sendEmergencyAlerts env d o).1.authorities.failed
        = if env.online then 1 else 0) := by
  refine ⟨rfl, rfl, ?_, ?_, ?_⟩
  · by_cases hb : (env.hasBluetooth && !d.contacts.isEmpty) = true
    · rcases ho : o.broadcastEmergency with e | v <;>
        simp [sendEmergencyAlerts, sendBluetoothAlerts, hb, ho]
    · simp [sendEmergencyAlerts, hb]
  · by_cases hf : (env.hasFirebase && env.online && !d.contacts.isEmpty) = true
    · rcases hs : o.saveEmergencyAlert with e | v
      · simp [sendEmergencyAlerts, sendFirebaseAlerts, hf, hs]
      · have hc := firebase_fold_count o.sendNotification d.contacts ⟨0, 0, []⟩
        simp [sendEmergencyAlerts, sendFirebaseAlerts, hf, hs]
        simpa using hc
    · simp [sendEmergencyAlerts, hf]
  · by_cases ha : env.online = true
    · by_cases hfb : env.hasFirebase = true
      · rcases ho : o.sendToAuthorities with e | v <;>
          simp [sendEmergencyAlerts, notifyAuthorities, ha, hfb, ho]
      · rcases ho : o.fetchAuthorities with e | status
        · simp [sendEmergencyAlerts, notifyAuthorities, ha, hfb, ho]
        · by_cases hok : 200 ≤ status ∧ status < 300 <;>
            simp [sendEmergencyAlerts, notifyAuthorities, ha, hfb, ho, hok]
    · simp [sendEmergencyAlerts, ha]

/-- Claim C5.  The claim as frozen says a failed channel is retried with
an exponential backoff while an attempt counter stays below the
maxAttempts policy constant (3, the retryAttempts of the EmergencyManager
constructor), and is left terminal with no retry once it reaches it.  In
the code the reconnect chain still schedules a fourth and a fifth attempt
after three failures (at 33000 ms and 43000 ms, attempts 0 through 2
having already run after a disconnect at time 0), and the gap between
consecutive attempts is the constant 10000 ms rather than growing: both
the terminal-at-maxAttempts part and the exponential-backoff part are
refuted at these explicit attempt indices. -/
theorem C5_counterexample :
    reconnectAttemptTime 0 retryAttempts = 33000 ∧
    reconnectAttemptTime 0 (retryAttempts + 1) = 43000 ∧
    reconnectAttemptTime 0 (retryAttempts + 1)
        - reconnectAttemptTime 0 retryAttempts
      = reconnectAttemptTime 0 1 - reconnectAttemptTime 0 0 := by
  decide

/-- Claim C5 (amended).  No attempt counter is kept and no maxAttempts
cutoff exists: after a disconnect at time t0 the reconnect attempt n runs
at t0 + 3000 + 10000 * n for every n, a fixed 10-second interval with no
exponential growth, no jitter, no cap and no terminal state (the constants
retryAttempts = 3 and retryDelay = 5000 are never consulted by any
caller). -/
theorem C5_constant_interval_unbounded_retry (t0 n : Nat) :
    reconnectAttemptTime t0 n = t0 + 3000 + 10000 * n := by
  induction n with
  | zero => simp [reconnectAttemptTime]
  | succ n ih =>
      simp only [reconnectAttemptTime, ih]
      ring

/-- Stored row that is unsynced while carrying a passthrough Failed state
and a future nextRetryAt, exercising the divergence between the code and
the claimed pending filter. -/
def overdueRow : EmRow :=
  { id := "r1", type := "manual", timestamp := 0, status := some "active",
    originalId := none, data := none, alertResults := none, duration := none,
    synced := false, createdAt := 0, state := some "Failed",
    nextRetryAt := some 100 }

/-- Claim C6.  The claim as frozen says the pending-retrieval operation
returns all and only the Failed entries whose nextRetryAt is at or before
now, sorted by nextRetryAt.  At this explicit input a store holds one
unsynced row whose nextRetryAt (100) lies after now (0): under the claim
the result must be empty (the entry is not yet due), but
getPendingEmergencies returns the row, because the code consults only the
synced flag and takes no clock at all. -/
theorem C6_counterexample :
    getPendingEmergencies [overdueRow] = [overdueRow] ∧
    getPendingClaimed [overdueRow] 0 = [] := by
  constructor
  · rfl
  · rfl

/-- Claim C6 (amended).  getPendingEmergencies returns all and only the
stored emergency rows whose synced flag is false; the result never depends
on the current time or on any per-channel Failed state or nextRetryAt
field (the function takes no clock and reads no such field). -/
theorem C6_pending_is_exactly_unsynced (db : List EmRow) (r : EmRow) :
    r ∈ getPendingEmergencies db ↔ r ∈ db ∧ r.synced = false := by
  simp [getPendingEmergencies]

/-- Row lookup distributes over appending rows at the end of the store:
the first match in the front part wins, otherwise the back part decides. -/
theorem findRow_append (l1 l2 : List EmRow) (id : String) :
    findRow (l1 ++ l2) id
      = match findRow l1 id with
        | some r => some r
        | none => findRow l2 id := by
  induction l1 with
  | nil => simp [findRow]
  | cons x xs ih =>
      by_cases hx : (x.id == id) = true <;>
        simp [findRow, List.find?_cons, hx] <;>
        simpa [findRow] using ih

/-- Claim C7.  Cancelling an active emergency preserves delivery history:
when the store holds the record of the current emergency with some
recorded alert results (in particular a positive sent tally for some
channel), cancelEmergency leaves that record, and every other stored row,
exactly as it was; it only possibly adds one fresh cancellation row under
the key origId plus the -cancelled suffix, and it clears the active flag
so no new dispatch can target this emergency. -/
theorem C7_cancel_preserves_history (s : CoordState) (db : List EmRow)
    (now : Nat) (origId : String) (rec : EmRow) (ar : AlertResults)
    (hact : s.isEmergencyActive = true)
    (hcur : s.currentEmergencyId = some origId)
    (hfind : findRow db origId = some rec)
    (hsent : rec.alertResults = some ar)
    (hpos : 0 < ar.totalSent) :
    findRow (cancelEmergency s db now).2 origId = some rec ∧
    (cancelEmergency s db now).1.isEmergencyActive = false ∧
    (∀ i, i ≠ origId ++ "-cancelled" →
      findRow (cancelEmergency s db now).2 i = findRow db i) := by
  by_cases hdup :
      (db.any fun r => r.id == origId ++ "-cancelled") = true
  · refine ⟨?_, ?_, ?_⟩ <;>
      simp [cancelEmergency, hact, hcur, saveEmergency, cancellationRow,
        hdup, hfind]
  · have hres : (cancelEmergency s db now).2
        = db ++ [cancellationRow origId now (s.emergencyStartTime.getD 0)] := by
      simp [cancelEmergency, hact, hcur, saveEmergency, cancellationRow, hdup]
    refine ⟨?_, ?_, ?_⟩
    · rw [hres, findRow_append, hfind]
    · simp [cancelEmergency, hact]
    · intro i hi
      rw [hres, findRow_append]
      rcases hf : findRow db i with _ | r
      · have hidne : (((cancellationRow origId now
            (s.emergencyStartTime.getD 0)).id) == i) = false := by
          simp [cancellationRow]
          exact Ne.symm hi
        simp [findRow, List.find?_cons, hidne]
      · rfl

/-- Alert results recording one successful bluetooth delivery. -/
def sentResults : AlertResults :=
  { bluetooth := ⟨1, 0, []⟩, firebase := ⟨0, 0, []⟩,
    authorities := ⟨0, 0, []⟩, totalSent := 1, totalFailed := 0 }

/-- Stored record of emergency e0 whose bluetooth channel already
reported Sent. -/
def deliveredRow : EmRow :=
  { id := "e0", type := "manual", timestamp := 0, status := some "active",
    originalId := none, data := none, alertResults := some sentResults,
    duration := none, synced := false, createdAt := 0, state := none,
    nextRetryAt := none }

/-- Witness for C7_cancel_preserves_history: cancelling emergency e0 after
its bluetooth Sent result was stored leaves the stored record intact. -/
theorem C7_cancel_preserves_history_witness :
    findRow (cancelEmergency activeState [deliveredRow] 9).2 "e0"
      = some deliveredRow ∧
    (cancelEmergency activeState [deliveredRow] 9).1.isEmergencyActive
      = false ∧
    findRow (cancelEmergency activeState [deliveredRow] 9).2 "other"
      = findRow [deliveredRow] "other" := by
  have h := C7_cancel_preserves_history activeState [deliveredRow] 9 "e0"
    deliveredRow sentResults rfl rfl rfl rfl (by decide)
  exact ⟨h.1, h.2.1, h.2.2 "other" (by decide)⟩

/-- Claim C8.  Context gathering is best effort and never aborts the
activation: whatever combination of outcomes the location, recording and
contact collaborators settle with (each possibly an error), an activation
from idle whose store write succeeds returns the ok summary, and a failed
collaborator contributes none (location), none (recording) or the empty
contact list to the gathered emergency context. -/
theorem C8_best_effort_activation (s : CoordState) (db : List EmRow)
    (newId : String) (now : Nat) (loc : Except String Location)
    (audio : Except String AudioRec) (contactsR : Except String (List Contact))
    (env : Env) (o : DispatchOutcomes)
    (hidle : s.isEmergencyActive = false)
    (hfresh : (db.any fun r => r.id == newId) = false) :
    (activateEmergency s db newId now loc audio contactsR env o).2.2.2
      = .ok (some
        { emergencyId := newId,
          alertsSent := (sendEmergencyAlerts env
            (executeEmergencyProcedures newId now loc audio contactsR)
            o).1.totalSent,
          location := loc.toOption,
          recording := audio.toOption }) ∧
    (executeEmergencyProcedures newId now loc audio contactsR).location
      = loc.toOption ∧
    (executeEmergencyProcedures newId now loc audio contactsR).audioRecording
      = audio.toOption ∧
    (executeEmergencyProcedures newId now loc audio contactsR).contacts
      = contactsR.toOption.getD [] := by
  refine ⟨?_, rfl, rfl, rfl⟩
  simp [activateEmergency, hidle, saveEmergency, hfresh,
    executeEmergencyProcedures]

/-- Witness for C8_best_effort_activation with all three collaborators
failing: the activation still returns the ok summary with absent
context. -/
theorem C8_best_effort_activation_witness :
    (activateEmergency idleState [] "e1" 5 (.error "no fix") (.error "no mic")
        (.error "no contacts") ⟨true, true, true⟩ okOutcomes).2.2.2
      = .ok (some
        { emergencyId := "e1",
          alertsSent := (sendEmergencyAlerts ⟨true, true, true⟩
            (executeEmergencyProcedures "e1" 5 (.error "no fix")
              (.error "no mic") (.error "no contacts")) okOutcomes).1.totalSent,
          location := none,
          recording := none }) ∧
    (executeEmergencyProcedures "e1" 5 (.error "no fix") (.error "no mic")
        (.error "no contacts")).location = none ∧
    (executeEmergencyProcedures "e1" 5 (.error "no fix") (.error "no mic")
        (.error "no contacts")).audioRecording = none ∧
    (executeEmergencyProcedures "e1" 5 (.error "no fix") (.error "no mic")
        (.error "no contacts")).contacts = [] :=
  C8_best_effort_activation idleState [] "e1" 5 (.error "no fix")
    (.error "no mic") (.error "no contacts") ⟨true, true, true⟩ okOutcomes
    rfl rfl

/-- Activation from an idle state never takes the silent early-return
branch: its result is a summary or an error, never ok none. -/
theorem activate_idle_not_silent (s : CoordState) (db : List EmRow)
    (newId : String) (now : Nat) (loc : Except String Location)
    (audio : Except String AudioRec) (contactsR : Except String (List Contact))
    (env : Env) (o : DispatchOutcomes) (h : s.isEmergencyActive = false) :
    (activateEmergency s db newId now loc audio contactsR env o).2.2.2
      ≠ .ok none := by
  unfold activateEmergency
  rw [if_neg (by simp [h])]
  dsimp only
  split <;> simp

/-- Claim C9.  When the store write of the activation throws (here: the
ConstraintError of a duplicate id), the in-memory active flag is reset to
false before the error is propagated, the store is left unchanged, and a
subsequent activation on the resulting state is never rejected through the
silent already-active branch. -/
theorem C9_failed_save_resets_flag (s : CoordState) (db : List EmRow)
    (newId : String) (now : Nat) (loc : Except String Location)
    (audio : Except String AudioRec) (contactsR : Except String (List Contact))
    (env : Env) (o : DispatchOutcomes)
    (hidle : s.isEmergencyActive = false)
    (hdup : (db.any fun r => r.id == newId) = true) :
    (activateEmergency s db newId now loc audio contactsR env o).2.2.2
      = .error "ConstraintError" ∧
    (activateEmergency s db newId now loc audio contactsR env o).1.isEmergencyActive
      = false ∧
    (activateEmergency s db newId now loc audio contactsR env o).2.1 = db ∧
    ∀ (db2 : List EmRow) (newId2 : String) (now2 : Nat)
      (loc2 : Except String Location) (audio2 : Except String AudioRec)
      (contactsR2 : Except String (List Contact)) (env2 : Env)
      (o2 : DispatchOutcomes),
      (activateEmergency
          (activateEmergency s db newId now loc audio contactsR env o).1
          db2 newId2 now2 loc2 audio2 contactsR2 env2 o2).2.2.2 ≠ .ok none := by
  have hflag : (activateEmergency s db newId now loc audio contactsR env
      o).1.isEmergencyActive = false := by
    simp [activateEmergency, hidle, saveEmergency, hdup]
  refine ⟨?_, hflag, ?_, ?_⟩
  · simp [activateEmergency, hidle, saveEmergency, hdup]
  · simp [activateEmergency, hidle, saveEmergency, hdup]
  · intro db2 newId2 now2 loc2 audio2 contactsR2 env2 o2
    exact activate_idle_not_silent _ _ _ _ _ _ _ _ _ hflag

/-- Witness for C9_failed_save_resets_flag: activating with an id that
collides with the stored record e0 throws, resets the flag, and leaves a
retry of activation possible. -/
theorem C9_failed_save_resets_flag_witness :
    (activateEmergency idleState [deliveredRow] "e0" 5 (.error "no fix")
        (.error "no mic") (.error "no contacts") ⟨true, true, true⟩
        okOutcomes).2.2.2 = .error "ConstraintError" ∧
    (activateEmergency idleState [deliveredRow] "e0" 5 (.error "no fix")
        (.error "no mic") (.error "no contacts") ⟨true, true, true⟩
        okOutcomes).1.isEmergencyActive = false ∧
    (activateEmergency idleState [deliveredRow] "e0" 5 (.error "no fix")
        (.error "no mic") (.error "no contacts") ⟨true, true, true⟩
        okOutcomes).2.1 = [deliveredRow] ∧
    (activateEmergency
        (activateEmergency idleState [deliveredRow] "e0" 5 (.error "no fix")
          (.error "no mic") (.error "no contacts") ⟨true, true, true⟩
          okOutcomes).1
        [] "e1" 7 (.error "no fix") (.error "no mic") (.error "no contacts")
        ⟨true, true, true⟩ okOutcomes).2.2.2 ≠ .ok none := by
  have h := C9_failed_save_resets_flag idleState [deliveredRow] "e0" 5
    (.error "no fix") (.error "no mic") (.error "no contacts")
    ⟨true, true, true⟩ okOutcomes rfl (by decide)
  exact ⟨h.1, h.2.1, h.2.2.1,
    h.2.2.2 [] "e1" 7 (.error "no fix") (.error "no mic")
      (.error "no contacts") ⟨true, true, true⟩ okOutcomes⟩

/-- A message handed to sendMessage ends up written to the characteristic
or appended to the message queue, in every branch. -/
theorem sendMessage_covers (s : BTState) (w : Bool) (m : Msg) :
    m ∈ (sendMessage s w m).1.transmitted ∨
    m ∈ (sendMessage s w m).1.messageQueue := by
  unfold sendMessage
  split
  · simp
  · split <;> simp

/-- sendMessage never removes a message from the transmitted history or
the queue. -/
theorem sendMessage_mono (s : BTState) (w : Bool) (m x : Msg)
    (h : x ∈ s.transmitted ∨ x ∈ s.messageQueue) :
    x ∈ (sendMessage s w m).1.transmitted ∨
    x ∈ (sendMessage s w m).1.messageQueue := by
  unfold sendMessage
  split
  · rcases h with h | h <;> simp [h]
  · split
    · rcases h with h | h <;> simp [h]
    · rcases h with h | h <;> simp [h]

/-- Folding sendMessage over a batch of messages preserves every message
already transmitted or queued. -/
theorem foldSend_mono (writeOk : Msg → Bool) (q : List Msg) :
    ∀ (st : BTState) (x : Msg),
      (x ∈ st.transmitted ∨ x ∈ st.messageQueue) →
      (x ∈ (q.foldl (fun st m => (sendMessage st (writeOk m) m).1)
          st).transmitted ∨
       x ∈ (q.foldl (fun st m => (sendMessage st (writeOk m) m).1)
          st).messageQueue) := by
  induction q with
  | nil => intro st x h; simpa using h
  | cons m ms ih =>
      intro st x h
      simpa [List.foldl_cons] using
        ih (sendMessage st (writeOk m) m).1 x
          (sendMessage_mono st (writeOk m) m x h)

/-- Folding sendMessage over a batch lands every message of the batch in
the transmitted history or back in the queue. -/
theorem foldSend_covers (writeOk : Msg → Bool) (q : List Msg) :
    ∀ (st : BTState) (x : Msg), x ∈ q →
      (x ∈ (q.foldl (fun st m => (sendMessage st (writeOk m) m).1)
          st).transmitted ∨
       x ∈ (q.foldl (fun st m => (sendMessage st (writeOk m) m).1)
          st).messageQueue) := by
  induction q with
  | nil => intro st x h; simp at h
  | cons m ms ih =>
      intro st x h
      rcases List.mem_cons.mp h with rfl | hmem
      · exact foldSend_mono writeOk ms (sendMessage st (writeOk x) x).1 x
          (sendMessage_covers st (writeOk x) x)
      · exact ih (sendMessage st (writeOk m) m).1 x hmem

/-- Claim C10.  The bluetooth layer never silently drops an outbound
message: every message handed to sendMessage is either written to the
connected characteristic (it enters the transmitted history) or appended
to the in-memory message queue, and processMessageQueue re-attempts every
queued message, leaving each one either transmitted or back in the
queue. -/
theorem C10_no_silent_drop (s : BTState) (w : Bool) (m : Msg)
    (writeOk : Msg → Bool) :
    (m ∈ (sendMessage s w m).1.transmitted ∨
     m ∈ (sendMessage s w m).1.messageQueue) ∧
    (∀ x ∈ s.messageQueue,
      x ∈ (processMessageQueue s writeOk).transmitted ∨
      x ∈ (processMessageQueue s writeOk).messageQueue) := by
  refine ⟨sendMessage_covers s w m, ?_⟩
  intro x hx
  unfold processMessageQueue
  by_cases hq : s.messageQueue.isEmpty
  · rw [if_pos hq]
    exact Or.inr hx
  · rw [if_neg hq]
    exact foldSend_covers writeOk s.messageQueue
      { s with messageQueue := [] } x hx

/-- Message fixtures for the C10 witness. -/
def msgQueued : Msg := { type := "emergency", id := "m1", payload := "a" }

/-- Second message fixture for the C10 witness. -/
def msgFresh : Msg := { type := "test", id := "m2", payload := "b" }

/-- Disconnected bluetooth state holding one queued message. -/
def btDisconnected : BTState :=
  { isConnected := false, hasCharacteristic := false,
    messageQueue := [msgQueued], transmitted := [] }

/-- Witness for C10_no_silent_drop on a disconnected state with one queued
message and a fresh outbound message. -/
theorem C10_no_silent_drop_witness :
    (msgFresh ∈ (sendMessage btDisconnected true msgFresh).1.transmitted ∨
     msgFresh ∈ (sendMessage btDisconnected true msgFresh).1.messageQueue) ∧
    (msgQueued ∈ (processMessageQueue btDisconnected
        (fun _ => true)).transmitted ∨
     msgQueued ∈ (processMessageQueue btDisconnected
        (fun _ => true)).messageQueue) :=
  ⟨(C10_no_silent_drop btDisconnected true msgFresh (fun _ => true)).1,
   (C10_no_silent_drop btDisconnected true msgFresh (fun _ => true)).2
     msgQueued (by decide)⟩

end StopIt
